import Mathlib

/-!
Shallow embedding of the compatibility-verification subsystem of yabridgectl
(src/tools/yabridgectl/src/utils.rs): the search-path verifier
(`verify_path_setup`), the runtime compatibility verifier
(`verify_wine_setup`), and the helpers they use.

Modelling conventions:
- Rust strings are modelled as `List Char` (one `Char` per byte; the code
  under verification only manipulates ASCII at the byte offsets it inspects).
  Subprocess outputs are modelled after the `String::from_utf8` step, so only
  valid UTF-8 outputs are representable; the extra fatal error path for
  non-UTF-8 output is outside the model.
- Effects are made explicit: the outcomes of the subprocess invocations, the
  filesystem probes and `config.write()` are oracle fields of an environment
  record, and the functions return a result record that also reports which
  side effects happened (subprocess spawned, config written, warning printed).
- Warnings are recorded structurally (constructor + the data the code
  interpolates into the message) rather than as the wrapped terminal text;
  `wrap`/`textwrap` formatting is cosmetic per the code comments.
- A Rust panic (`Option::unwrap` on `None`) is a distinct outcome from a
  returned `Err`.
-/

deriving instance DecidableEq for Except

namespace Yabridge

/-- Rust strings, one `Char` per byte. -/
abbrev Str := List Char

/-- `YABRIDGE_HOST_EXE_NAME` from the config module: the companion binary's
file name, `"yabridge-host.exe"`. -/
def YABRIDGE_HOST_EXE_NAME : Str := "yabridge-host.exe".toList

/-- The constant `YABRIDGE_HOST_EXPECTED_OUTPUT_PREFIX` from utils.rs
(renamed): the marker `"Usage: yabridge-"`; a stderr line starting with this
signals that the helper binary works. -/
def YABRIDGE_HOST_EXPECTED_OUTPUT_MARKER : Str := "Usage: yabridge-".toList

/-- The five bytes that, at byte offset 5..10 of a stderr line, mark a Wine
"fixme" message to be ignored by the classifier. -/
def fixmeMarker : Str := "fixme".toList

/-- `KnownConfig` from the config module: the persisted cache value, the last
Wine version / yabridge-host hash pairing that passed verification. -/
structure KnownConfig where
  wine_version : Str
  yabridge_host_hash : Int
deriving DecidableEq, Repr

/-- The resolved file locations returned by `config.files()`. -/
structure ConfigFiles where
  yabridge_host_exe : Str
  yabridge_host_exe_so : Str
  libyabridge_vst2 : Str
deriving DecidableEq, Repr

/-- The `Config` collaborator, restricted to what the verifiers touch:
the persisted cache field and the (fallible) resolved file locations.
`files = none` models `config.files()` returning `Err`. -/
structure Config where
  last_known_config : Option KnownConfig
  files : Option ConfigFiles
deriving DecidableEq, Repr

/-! ## Path helpers (models of `std::path::Path` operations) -/

/-- Model of `Path::file_name().and_then(|s| s.to_str())`: the last normal
component of the path (empty and `"."` components are skipped), or `none`
when the path is empty, a root, or ends in `".."`. -/
def fileName (p : Str) : Option Str :=
  let comps := (p.splitOn '/').filter (fun c => c ≠ [] ∧ c ≠ ".".toList)
  match comps.getLast? with
  | some c => if c = "..".toList then none else some c
  | none => none

/-- The shell name used for classification: the basename of `$SHELL`, falling
back to the full `$SHELL` string when there is no basename
(`.unwrap_or_else(|| shell_path.as_str())`). -/
def shellNameOf (shell_path : Str) : Str :=
  (fileName shell_path).getD shell_path

/-- Model of `Path::parent()`: `none` for the empty path and the root `"/"`,
otherwise the path with its final component dropped (keeping a leading
root). -/
def parentOf (p : Str) : Option Str :=
  if p = [] ∨ p = "/".toList then none
  else
    let par := List.intercalate "/".toList (List.dropLast (p.splitOn '/'))
    if par = [] ∧ p.head? = some '/' then some "/".toList
    else some par

/-! ## Shell classifier -/

/-- The invocation recipes of the shell table in `verify_path_setup`:
login-mode flag + POSIX `command -v`; `command -v` without a login flag;
login-mode flag + `which`; `which` without a login flag; or an unrecognized
shell. -/
inductive ShellRecipe
  | posixLogin
  | posixNoLogin
  | whichLogin
  | whichNoLogin
  | unknown
deriving DecidableEq, Repr

/-- The shells of the first match arm: `-l` flag plus POSIX `command -v`. -/
def posixLoginShells : List Str :=
  ["ash", "bash", "csh", "ksh", "dash", "fish", "ion", "sh", "tcsh",
   "zsh"].map String.toList

/-- The shells of the second match arm: `command -v` but no login flag. -/
def commandNoLoginShells : List Str := ["elvish", "oil"].map String.toList

/-- The shell→recipe table of `verify_path_setup` (the `match shell` arms):
any identifier outside the four listed groups maps to `unknown`. -/
def classifyShell (shell : Str) : ShellRecipe :=
  if shell ∈ posixLoginShells then .posixLogin
  else if shell ∈ commandNoLoginShells then .posixNoLogin
  else if shell = "pwsh".toList then .whichLogin
  else if shell = "nu".toList then .whichNoLogin
  else .unknown

/-- The argument list each recipe passes to the shell (after `argv[0]`); the
query string interpolates `YABRIDGE_HOST_EXE_NAME`. `none` for `unknown`,
where no subprocess is built. -/
def recipeArgs : ShellRecipe → Option (List Str)
  | .posixLogin =>
      some ["-l".toList, "-c".toList,
            "command -v ".toList ++ YABRIDGE_HOST_EXE_NAME]
  | .posixNoLogin =>
      some ["-c".toList, "command -v ".toList ++ YABRIDGE_HOST_EXE_NAME]
  | .whichLogin =>
      some ["-l".toList, "-c".toList,
            "which ".toList ++ YABRIDGE_HOST_EXE_NAME]
  | .whichNoLogin =>
      some ["-c".toList, "which ".toList ++ YABRIDGE_HOST_EXE_NAME]
  | .unknown => none

/-! ## Search-path verifier -/

/-- The warnings `verify_path_setup` can print (recorded structurally, with
the data the code interpolates into the message text). -/
inductive PathWarning
  | unknownShell (shell : Str)
  | notInPath (dir : Str) (shell : Str)
  | spawnFailed (shell : Str) (err : Str)
  | noLoginShell
deriving DecidableEq, Repr

/-- The value `verify_path_setup` produces: `Ok(bool)`, a propagated `Err`
(from `config.files()?`), or a panic (`parent().unwrap()` on `None`). -/
inductive PRet
  | err
  | panicked
  | ok (found : Bool)
deriving DecidableEq, Repr

/-- The login-shell subprocess as built by the code: program `$SHELL`,
`argv[0]` set to `-$SHELL`, then the recipe's arguments. (The code also
clears the environment and re-injects `$HOME`; that does not influence the
modelled outcome.) -/
structure SpawnedShell where
  program : Str
  argv0 : Str
  args : List Str
deriving DecidableEq, Repr

/-- The observable behaviour of one `verify_path_setup` run: the returned
value, the subprocess spawned (if any), and the warning printed (if any). -/
structure PathResult where
  ret : PRet
  spawned : Option SpawnedShell
  warning : Option PathWarning
deriving DecidableEq, Repr

/-- The environment oracle for `verify_path_setup`:
`data_home` is `config::yabridge_directories()`'s data directory (`none`
models `Err`); `is_executable` is the `IsExecutable` probe;
`shell_var` is `env::var("SHELL")`; `probe_status` is the outcome of running
the constructed login-shell command (`.error` = spawn failure, `.ok n` = exit
status `n`). -/
structure PathEnv where
  data_home : Option Str
  is_executable : Str → Bool
  shell_var : Option Str
  probe_status : Except Str Nat

/-- Lines 129–135 of utils.rs: whether `~/.local/share/yabridge/yabridge-host.exe`
is executable, with a directory-resolution failure collapsed to `false`
(`.unwrap_or(false)`). -/
def xdgDataYabridgeExists (env : PathEnv) : Bool :=
  match env.data_home with
  | some dir => env.is_executable (dir ++ "/".toList ++ YABRIDGE_HOST_EXE_NAME)
  | none => false

/-- `verify_path_setup` from utils.rs. Mirrors the source control flow:
1. succeed immediately when the companion binary is executable in the XDG
   data directory;
2. on unset `$SHELL`, warn and return `Ok(true)`;
3. classify the shell basename; unknown shells warn and return `Ok(true)`;
4. otherwise run the recipe's command: exit 0 → `Ok(true)`; non-zero exit →
   build the warning (which needs `config.files()?` and
   `libyabridge_vst2.parent().unwrap()`) and return `Ok(false)`; spawn
   failure → warn and return `Ok(true)`. -/
def verify_path_setup (env : PathEnv) (config : Config) : PathResult :=
  if xdgDataYabridgeExists env then ⟨.ok true, none, none⟩
  else
    match env.shell_var with
    | none => ⟨.ok true, none, some .noLoginShell⟩
    | some shell_path =>
      let shell := shellNameOf shell_path
      match recipeArgs (classifyShell shell) with
      | none => ⟨.ok true, none, some (.unknownShell shell)⟩
      | some args =>
        let cmd : SpawnedShell := ⟨shell_path, '-' :: shell_path, args⟩
        match env.probe_status with
        | .ok status =>
          if status = 0 then ⟨.ok true, some cmd, none⟩
          else
            match config.files with
            | none => ⟨.err, some cmd, none⟩
            | some files =>
              match parentOf files.libyabridge_vst2 with
              | none => ⟨.panicked, some cmd, none⟩
              | some dir => ⟨.ok false, some cmd, some (.notInPath dir shell)⟩
        | .error e => ⟨.ok true, some cmd, some (.spawnFailed shell e)⟩

/-! ## Runtime compatibility verifier -/

/-- Lines 263–264 of utils.rs, `String::from_utf8(..)` then
`wine_version.pop().unwrap()`: strip the last character of the version
probe's stdout, whatever it is. `none` models the `unwrap` panic on an empty
stdout. -/
def wineVersionOf (stdout : Str) : Option Str :=
  if stdout = [] then none else some stdout.dropLast

/-- `wine_version.strip_prefix("wine-").unwrap_or(&wine_version)`: the form
of the version shown in the failure warning. -/
def stripWineLabel (v : Str) : Str :=
  if "wine-".toList.isPrefixOf v then v.drop 5 else v

/-- Strip one carriage return from the end of a line (Rust `str::lines`
treats `\r\n` as a line ending). -/
def stripCR (l : Str) : Str :=
  if l.getLast? = some '\r' then l.dropLast else l

/-- Model of Rust `str::lines()`: split on `'\n'`, a final line terminator
produces no trailing empty line, interior `"\r\n"` endings lose the `'\r'`,
and a last line without a terminator is kept verbatim. -/
def rustLines (s : Str) : List Str :=
  if s = [] then []
  else if s.getLast? = some '\n' then
    ((s.splitOn '\n').dropLast).map stripCR
  else
    match (s.splitOn '\n').reverse with
    | [] => []
    | last :: revInit => (revInit.reverse.map stripCR) ++ [last]

/-- Rust `line.get(5..10)`: the five bytes at offset 5, or `none` when the
line is shorter than 10 bytes. -/
def lineGet5to10 (l : Str) : Option Str :=
  if 10 ≤ l.length then some ((l.drop 5).take 5) else none

/-- `line.starts_with(YABRIDGE_HOST_EXPECTED_OUTPUT_PREFIX)`: the line
signals that the helper binary printed its usage string. -/
def isUsageLine (l : Str) : Bool :=
  YABRIDGE_HOST_EXPECTED_OUTPUT_MARKER.isPrefixOf l

/-- `line.get(5..10) == Some("fixme")`: the line is a Wine "fixme" message,
ignored by the classifier. -/
def isFixmeLine (l : Str) : Bool :=
  lineGet5to10 l == some fixmeMarker

/-- The stderr classification loop of `verify_wine_setup` (lines 297–310):
scan the lines in order; a line starting with the expected usage marker sets
`success` and breaks; a line whose bytes 5..10 are `"fixme"` is skipped;
every other line overwrites `last_error`. Returns `(success, last_error)`,
with `acc` the `last_error` accumulated so far. -/
def classifyHostOutput (acc : Option Str) : List Str → Bool × Option Str
  | [] => (false, acc)
  | line :: rest =>
    if isUsageLine line then (true, acc)
    else if isFixmeLine line then
      classifyHostOutput acc rest
    else
      classifyHostOutput (some line) rest

/-- The placeholder shown when the classifier captured no error line. -/
def noOutputPlaceholder : Str := "<no_output>".toList

/-- The warning `verify_wine_setup` can print: the failure advisory, carrying
the representative error line (or the placeholder) and the version string as
displayed (with the `"wine-"` label stripped). -/
inductive WineWarning
  | hostRunFailure (error_line : Str) (wine_version_display : Str)
deriving DecidableEq, Repr

/-- How one `verify_wine_setup` call ends: a Rust panic, a returned `Err`, or
`Ok(())`. -/
inductive WOutcome
  | panicked
  | err
  | ok
deriving DecidableEq, Repr

/-- The observable behaviour of one `verify_wine_setup` run: how it ended,
the final `Config` (the caller's `&mut Config` after the call), whether the
helper subprocess was run, whether `config.write()` was invoked, and the
warning printed (if any). -/
structure WineResult where
  outcome : WOutcome
  config : Config
  helper_invoked : Bool
  write_invoked : Bool
  warning : Option WineWarning
deriving DecidableEq, Repr

/-- The environment oracle for `verify_wine_setup`:
`wineloader` is `env::var("WINELOADER")` (it only selects which binary the
version probe runs); `wine_version_out` is the probe's result (`.error` =
could not run Wine, `.ok` = its stdout); `hash_result` is
`hash_file(yabridge_host_exe_so)`; `host_stderr` is the result of running the
helper with no arguments (`.error` = could not run it, `.ok` = its stderr);
`write_ok` is whether `config.write()` succeeds. -/
structure WineEnv where
  wineloader : Option Str
  wine_version_out : Except Str Str
  hash_result : Except Str Int
  host_stderr : Except Str Str
  write_ok : Bool

/-- `verify_wine_setup` from utils.rs. Mirrors the source control flow:
run `wine --version` (failure is a hard `Err`); strip the stdout's last
character (panics on empty stdout); resolve `config.files()` (`Err` on
failure); hash `yabridge-host.exe.so` (`Err` on failure); build the candidate
`KnownConfig` and return `Ok` immediately on a cache hit; otherwise run the
helper (`Err` if it cannot be run) and classify its stderr; on success store
the candidate in `last_known_config` and call `config.write()` (whose failure
is an `Err`, after the field was already updated); on failure leave the
config untouched, print the advisory warning and return `Ok`. -/
def verify_wine_setup (env : WineEnv) (config : Config) : WineResult :=
  match env.wine_version_out with
  | .error _ => ⟨.err, config, false, false, none⟩
  | .ok stdout =>
    match wineVersionOf stdout with
    | none => ⟨.panicked, config, false, false, none⟩
    | some wine_version =>
      match config.files with
      | none => ⟨.err, config, false, false, none⟩
      | some _files =>
        match env.hash_result with
        | .error _ => ⟨.err, config, false, false, none⟩
        | .ok yabridge_host_hash =>
          let current_config : KnownConfig :=
            ⟨wine_version, yabridge_host_hash⟩
          if config.last_known_config = some current_config then
            ⟨.ok, config, false, false, none⟩
          else
            match env.host_stderr with
            | .error _ => ⟨.err, config, true, false, none⟩
            | .ok stderr =>
              let r := classifyHostOutput none (rustLines stderr)
              if r.1 then
                if env.write_ok then
                  ⟨.ok, { config with last_known_config := some current_config },
                    true, true, none⟩
                else
                  ⟨.err, { config with last_known_config := some current_config },
                    true, true, none⟩
              else
                ⟨.ok, config, true, false,
                  some (.hostRunFailure (r.2.getD noOutputPlaceholder)
                    (stripWineLabel wine_version))⟩

/-! ## Lemmas about the stderr classifier -/

/-- The classifier reports success exactly when some line carries the usage
marker, whatever `last_error` was accumulated before. -/
theorem classify_fst_iff (ls : List Str) (acc : Option Str) :
    (classifyHostOutput acc ls).1 = true ↔ ∃ l ∈ ls, isUsageLine l = true := by
  induction ls generalizing acc with
  | nil => simp [classifyHostOutput]
  | cons l rest ih =>
    by_cases hu : isUsageLine l = true
    · simp [classifyHostOutput, hu]
    · by_cases hf : isFixmeLine l = true
      · simp [classifyHostOutput, hu, hf, ih]
      · simp [classifyHostOutput, hu, hf, ih]

/-- When no line carries the usage marker, the retained `last_error` is the
last non-fixme line, falling back to the accumulator. -/
theorem classify_snd_eq (ls : List Str) (acc : Option Str)
    (h : ∀ l ∈ ls, isUsageLine l = false) :
    (classifyHostOutput acc ls).2 =
      match (ls.filter (fun l => !isFixmeLine l)).getLast? with
      | some e => some e
      | none => acc := by
  induction ls generalizing acc with
  | nil => simp [classifyHostOutput]
  | cons l rest ih =>
    have hl : isUsageLine l = false := h l (by simp)
    have hrest : ∀ x ∈ rest, isUsageLine x = false := fun x hx => h x (by simp [hx])
    by_cases hf : isFixmeLine l = true
    · simpa [classifyHostOutput, hl, hf] using ih acc hrest
    · have hstep : classifyHostOutput acc (l :: rest) = classifyHostOutput (some l) rest := by
        simp [classifyHostOutput, hl, hf]
      have hfil : (l :: rest).filter (fun x => !isFixmeLine x) =
          l :: rest.filter (fun x => !isFixmeLine x) := by
        simp [List.filter_cons, hf]
      rw [hstep, ih (some l) hrest, hfil]
      cases hfr : (rest.filter (fun x => !isFixmeLine x)).getLast? with
      | none =>
        have hnil : rest.filter (fun x => !isFixmeLine x) = [] := by
          simpa using hfr
        simp [hnil]
      | some e =>
        have hmem : e ∈ ((l :: rest.filter (fun x => !isFixmeLine x)).getLast?) :=
          List.mem_getLast?_cons (by simpa using hfr)
        have : (l :: rest.filter (fun x => !isFixmeLine x)).getLast? = some e := by
          simpa using hmem
        simp [this]

/-- A fixme line is never the retained `last_error`. -/
theorem classify_snd_not_fixme (ls : List Str) (acc : Option Str)
    (hacc : ∀ x, acc = some x → isFixmeLine x = false) :
    ∀ e, (classifyHostOutput acc ls).2 = some e → isFixmeLine e = false := by
  induction ls generalizing acc with
  | nil =>
    intro e he
    exact hacc e (by simpa [classifyHostOutput] using he)
  | cons l rest ih =>
    intro e he
    by_cases hu : isUsageLine l = true
    · exact hacc e (by simpa [classifyHostOutput, hu] using he)
    · by_cases hf : isFixmeLine l = true
      · exact ih acc hacc e (by simpa [classifyHostOutput, hu, hf] using he)
      · refine ih (some l) ?_ e (by simpa [classifyHostOutput, hu, hf] using he)
        intro x hx
        cases hx
        simpa using hf

/-- Scanning stops at the first usage line: the lines after it do not change
the classification. -/
theorem classify_stops_at_first (acc : Option Str) (pre : List Str) (l : Str)
    (post : List Str) (hpre : ∀ p ∈ pre, isUsageLine p = false)
    (hl : isUsageLine l = true) :
    classifyHostOutput acc (pre ++ l :: post) = classifyHostOutput acc (pre ++ [l]) := by
  induction pre generalizing acc with
  | nil => simp [classifyHostOutput, hl]
  | cons p pre ih =>
    have hp : isUsageLine p = false := hpre p (by simp)
    have hpre2 : ∀ q ∈ pre, isUsageLine q = false := fun q hq => hpre q (by simp [hq])
    by_cases hf : isFixmeLine p = true
    · simp [classifyHostOutput, hp, hf, ih _ hpre2]
    · simp [classifyHostOutput, hp, hf, ih _ hpre2]

/-! ## Concrete fixtures used by witnesses and counterexamples -/

/-- A config with no cache and failing file resolution. -/
def cfgEmpty : Config := ⟨none, none⟩

/-- Resolved file locations used by concrete runs. -/
def filesDemo : ConfigFiles :=
  ⟨"/home/u/.local/share/yabridge/yabridge-host.exe".toList,
   "/home/u/.local/share/yabridge/yabridge-host.exe.so".toList,
   "/usr/lib/libyabridge-vst2.so".toList⟩

/-- A config whose cache matches `wEnvCacheHit`'s probes. -/
def cfgHit : Config := ⟨some ⟨"wine-6.0".toList, 1234⟩, some filesDemo⟩

/-- Wine environment whose probes reproduce `cfgHit`'s cache value. -/
def wEnvCacheHit : WineEnv :=
  ⟨none, .ok "wine-6.0\n".toList, .ok 1234, .ok "".toList, true⟩

/-- Wine environment whose version probe prints nothing at all. -/
def wEnvEmptyOut : WineEnv := ⟨none, .ok [], .ok 0, .ok [], true⟩

/-- Wine environment where the helper fails: its stderr has an error line and
a fixme line and no usage line. -/
def wEnvFail : WineEnv :=
  ⟨none, .ok "wine-4.0\n".toList, .ok 1234,
   .ok "000b:err:module:init failed\n002b:fixme:font:stub\n".toList, true⟩

/-! ## Claim theorems: runtime compatibility verifier -/

/-- C2: the version stored by `verify_wine_setup`'s normalization step
(`wineVersionOf`, i.e. `String::from_utf8` + `pop`) of a probe output ending
in a line terminator is exactly that output minus the single trailing `'\n'`;
no other character is removed. -/
theorem C2_version_trim (out : Str) (h : out.getLast? = some '\n') :
    ∃ v, wineVersionOf out = some v ∧ v ++ ['\n'] = out := by
  have hne : out ≠ [] := by
    intro he
    rw [he] at h
    simp at h
  refine ⟨out.dropLast, by simp [wineVersionOf, hne], ?_⟩
  exact List.dropLast_append_getLast? '\n' h

/-- Witness for C2 at the concrete probe output `"wine-6.0.1\n"`. -/
theorem C2_version_trim_witness :
    ∃ v, wineVersionOf "wine-6.0.1\n".toList = some v ∧
      v ++ ['\n'] = "wine-6.0.1\n".toList :=
  C2_version_trim "wine-6.0.1\n".toList (by decide)

/-- C9: on an empty (zero-byte) version-probe stdout, `verify_wine_setup`
panics (`pop().unwrap()` on `None`) rather than returning the contextual
`Err` used for fatal failures. -/
theorem C9_empty_version_panics (env : WineEnv) (cfg : Config)
    (h : env.wine_version_out = .ok ([] : Str)) :
    (verify_wine_setup env cfg).outcome = .panicked ∧
    (verify_wine_setup env cfg).outcome ≠ .err ∧
    wineVersionOf [] = none := by
  simp [verify_wine_setup, h, wineVersionOf]

/-- Witness for C9 at a concrete environment with empty probe output. -/
theorem C9_empty_version_panics_witness :
    (verify_wine_setup wEnvEmptyOut cfgEmpty).outcome = .panicked ∧
    (verify_wine_setup wEnvEmptyOut cfgEmpty).outcome ≠ .err ∧
    wineVersionOf [] = none :=
  C9_empty_version_panics wEnvEmptyOut cfgEmpty rfl

/-- C3: once the candidate `KnownConfig` is computable (version probe, file
resolution and hash all succeeded), the helper subprocess is run iff the
candidate differs from the persisted cache value; on an exact match the
verifier returns success immediately, having run nothing and written
nothing. -/
theorem C3_cache_hit_gate (env : WineEnv) (cfg : Config) (out v : Str)
    (fs : ConfigFiles) (hh : Int)
    (h1 : env.wine_version_out = .ok out) (h2 : wineVersionOf out = some v)
    (h3 : cfg.files = some fs) (h4 : env.hash_result = .ok hh) :
    ((verify_wine_setup env cfg).helper_invoked = true ↔
      cfg.last_known_config ≠ some ⟨v, hh⟩) ∧
    (cfg.last_known_config = some ⟨v, hh⟩ →
      verify_wine_setup env cfg = ⟨.ok, cfg, false, false, none⟩) := by
  by_cases hc : cfg.last_known_config = some (⟨v, hh⟩ : KnownConfig)
  · exact ⟨by simp [verify_wine_setup, h1, h2, h3, h4, hc],
      fun _ => by simp [verify_wine_setup, h1, h2, h3, h4, hc]⟩
  · refine ⟨?_, fun hcc => absurd hcc hc⟩
    simp only [verify_wine_setup, h1, h2, h3, h4]
    cases hs : env.host_stderr with
    | error e => simp [hc, hs]
    | ok serr =>
      by_cases hr : (classifyHostOutput none (rustLines serr)).1 = true
      · by_cases hw : env.write_ok <;> simp [hc, hs, hr, hw]
      · simp [hc, hs, hr]

/-- Witness for C3 at a concrete cache-hit environment. -/
theorem C3_cache_hit_gate_witness :
    ((verify_wine_setup wEnvCacheHit cfgHit).helper_invoked = true ↔
      cfgHit.last_known_config ≠ some ⟨"wine-6.0".toList, 1234⟩) ∧
    (cfgHit.last_known_config = some ⟨"wine-6.0".toList, 1234⟩ →
      verify_wine_setup wEnvCacheHit cfgHit = ⟨.ok, cfgHit, false, false, none⟩) :=
  C3_cache_hit_gate wEnvCacheHit cfgHit "wine-6.0\n".toList "wine-6.0".toList
    filesDemo 1234 rfl (by decide) rfl rfl

/-- C4: the stderr classifier reports success iff some line starts with the
usage marker; scanning stops at the first such line; fixme lines (bytes 5..10
spell "fixme") are never retained; on failure the retained representative
error is the last non-fixme line, or nothing when none was captured. -/
theorem C4_stderr_classification :
    (∀ ls : List Str,
      ((classifyHostOutput none ls).1 = true ↔ ∃ l ∈ ls, isUsageLine l = true) ∧
      ((classifyHostOutput none ls).1 = false →
        (classifyHostOutput none ls).2 =
          (ls.filter (fun l => !isFixmeLine l)).getLast?) ∧
      (∀ e, (classifyHostOutput none ls).2 = some e → isFixmeLine e = false)) ∧
    (∀ (pre : List Str) (l : Str) (post : List Str),
      (∀ p ∈ pre, isUsageLine p = false) → isUsageLine l = true →
      classifyHostOutput none (pre ++ l :: post) =
        classifyHostOutput none (pre ++ [l])) := by
  constructor
  · intro ls
    refine ⟨classify_fst_iff ls none, ?_, classify_snd_not_fixme ls none (by simp)⟩
    intro hfail
    have hno : ∀ l ∈ ls, isUsageLine l = false := by
      intro l hl
      by_contra hne
      have hs : (classifyHostOutput none ls).1 = true :=
        (classify_fst_iff ls none).2 ⟨l, hl, by simpa using hne⟩
      rw [hfail] at hs
      exact absurd hs (by decide)
    rw [classify_snd_eq ls none hno]
    cases (ls.filter (fun l => !isFixmeLine l)).getLast? <;> rfl
  · exact fun pre l post h1 h2 => classify_stops_at_first none pre l post h1 h2

/-- Lines of the witness failure stream for C4. -/
def demoFailLines : List Str :=
  ["0009:err:module:x", "002b:fixme:font:y", "0010:err:environ:z"].map String.toList

/-- A usage line and surrounding noise for the C4 witness. -/
def demoUsage : Str := "Usage: yabridge-host.exe <plugin>".toList

/-- The fixme-only part preceding the usage line in the C4 witness. -/
def demoPre : List Str := ["002b:fixme:font:y"].map String.toList

/-- Lines after the usage line in the C4 witness. -/
def demoPost : List Str := ["0011:err:late:ignored"].map String.toList

/-- Witness for C4: a concrete failure stream retains its last error line,
and scanning a concrete stream stops at the usage line. -/
theorem C4_stderr_classification_witness :
    (classifyHostOutput none demoFailLines).2 = some "0010:err:environ:z".toList ∧
    classifyHostOutput none (demoPre ++ demoUsage :: demoPost) =
      classifyHostOutput none (demoPre ++ [demoUsage]) := by
  constructor
  · have h := (C4_stderr_classification.1 demoFailLines).2.1 (by decide)
    exact h.trans (by decide)
  · exact C4_stderr_classification.2 demoPre demoUsage demoPost (by decide) (by decide)

/-- C5: when the helper's stderr is classified as failure, nothing is
persisted: the config is returned unchanged, `config.write()` is not called,
the advisory warning carries the representative error line (or the
placeholder) and the detected version (displayed with the `"wine-"` label
stripped), and the function returns `Ok`. -/
theorem C5_failure_no_persist (env : WineEnv) (cfg : Config) (out v : Str)
    (fs : ConfigFiles) (hh : Int) (serr : Str)
    (h1 : env.wine_version_out = .ok out) (h2 : wineVersionOf out = some v)
    (h3 : cfg.files = some fs) (h4 : env.hash_result = .ok hh)
    (h5 : cfg.last_known_config ≠ some ⟨v, hh⟩)
    (h6 : env.host_stderr = .ok serr)
    (h7 : (classifyHostOutput none (rustLines serr)).1 = false) :
    verify_wine_setup env cfg =
      ⟨.ok, cfg, true, false,
        some (.hostRunFailure
          ((classifyHostOutput none (rustLines serr)).2.getD noOutputPlaceholder)
          (stripWineLabel v))⟩ := by
  simp [verify_wine_setup, h1, h2, h3, h4, h5, h6, h7]

/-- Witness for C5 at a concrete failing helper run. -/
theorem C5_failure_no_persist_witness :
    verify_wine_setup wEnvFail cfgHit =
      ⟨.ok, cfgHit, true, false,
        some (.hostRunFailure "000b:err:module:init failed".toList "4.0".toList)⟩ := by
  have h := C5_failure_no_persist wEnvFail cfgHit "wine-4.0\n".toList
    "wine-4.0".toList filesDemo 1234
    "000b:err:module:init failed\n002b:fixme:font:stub\n".toList
    rfl (by decide) rfl rfl (by decide) rfl (by decide)
  exact h.trans (by decide)

/-- C10: whenever `verify_wine_setup` returns `Ok`, the cache field is either
exactly unchanged or exactly the freshly computed candidate, and it is only
replaced when the stderr classification succeeded (and the new value was
written out). -/
theorem C10_config_update_invariant (env : WineEnv) (cfg : Config)
    (h : (verify_wine_setup env cfg).outcome = .ok) :
    (verify_wine_setup env cfg).config = cfg ∨
    (∃ out v hh serr,
      env.wine_version_out = .ok out ∧ wineVersionOf out = some v ∧
      env.hash_result = .ok hh ∧ env.host_stderr = .ok serr ∧
      (classifyHostOutput none (rustLines serr)).1 = true ∧
      (verify_wine_setup env cfg).config =
        { cfg with last_known_config := some ⟨v, hh⟩ } ∧
      (verify_wine_setup env cfg).write_invoked = true) := by
  cases hw : env.wine_version_out with
  | error e => left; simp [verify_wine_setup, hw]
  | ok stdout =>
    cases hv : wineVersionOf stdout with
    | none => left; simp [verify_wine_setup, hw, hv]
    | some v =>
      cases hf : cfg.files with
      | none => left; simp [verify_wine_setup, hw, hv, hf]
      | some fs =>
        cases hh : env.hash_result with
        | error e => left; simp [verify_wine_setup, hw, hv, hf, hh]
        | ok hsh =>
          by_cases hc : cfg.last_known_config = some (⟨v, hsh⟩ : KnownConfig)
          · left; simp [verify_wine_setup, hw, hv, hf, hh, hc]
          · cases hs : env.host_stderr with
            | error e => left; simp [verify_wine_setup, hw, hv, hf, hh, hc, hs]
            | ok serr =>
              by_cases hr : (classifyHostOutput none (rustLines serr)).1 = true
              · cases hwr : env.write_ok with
                | false =>
                  exfalso
                  simp [verify_wine_setup, hw, hv, hf, hh, hc, hs, hr, hwr] at h
                | true =>
                  right
                  exact ⟨stdout, v, hsh, serr, rfl, hv, rfl, rfl, hr,
                    by simp [verify_wine_setup, hw, hv, hf, hh, hc, hs, hr, hwr],
                    by simp [verify_wine_setup, hw, hv, hf, hh, hc, hs, hr, hwr]⟩
              · left; simp [verify_wine_setup, hw, hv, hf, hh, hc, hs, hr]

/-- Witness for C10 at a concrete cache-hit run (the unchanged branch). -/
theorem C10_config_update_invariant_witness :
    (verify_wine_setup wEnvCacheHit cfgHit).config = cfgHit ∨
    (∃ out v hh serr,
      wEnvCacheHit.wine_version_out = .ok out ∧ wineVersionOf out = some v ∧
      wEnvCacheHit.hash_result = .ok hh ∧ wEnvCacheHit.host_stderr = .ok serr ∧
      (classifyHostOutput none (rustLines serr)).1 = true ∧
      (verify_wine_setup wEnvCacheHit cfgHit).config =
        { cfgHit with last_known_config := some ⟨v, hh⟩ } ∧
      (verify_wine_setup wEnvCacheHit cfgHit).write_invoked = true) :=
  C10_config_update_invariant wEnvCacheHit cfgHit (by decide)

/-! ## Claim theorems: search-path verifier -/

/-- A run that verifies successfully through the XDG data directory. -/
def pEnvVerifiedXdg : PathEnv :=
  ⟨some "/home/u/.local/share/yabridge".toList, fun _ => true,
   some "/bin/bash".toList, .ok 0⟩

/-- A run where `$SHELL` is unset and the XDG check fails: inconclusive. -/
def pEnvNoShellVar : PathEnv := ⟨none, fun _ => false, none, .ok 0⟩

/-- A run with an unrecognized login shell. -/
def pEnvUnknownShell : PathEnv :=
  ⟨none, fun _ => false, some "/usr/bin/xonsh".toList, .ok 0⟩

/-- A run where bash's login-shell probe exits with status 1. -/
def pEnvBashExit1 : PathEnv :=
  ⟨none, fun _ => false, some "/bin/bash".toList, .ok 1⟩

/-- A config with resolved files but no cache. -/
def cfgWithFiles : Config := ⟨none, some filesDemo⟩

/-- The argument list built for bash's login-shell probe. -/
def bashArgs : List Str :=
  ["-l".toList, "-c".toList, "command -v ".toList ++ YABRIDGE_HOST_EXE_NAME]

/-- Counterexample to C1 as stated: a verified-success run (companion binary
executable in the XDG data directory) and an inconclusive run (`$SHELL`
unset, nothing verifiable) return the very same value `Ok(true)`; the
returned value does not distinguish them. -/
theorem C1_counterexample :
    (verify_path_setup pEnvVerifiedXdg cfgEmpty).ret = .ok true ∧
    xdgDataYabridgeExists pEnvNoShellVar = false ∧
    pEnvNoShellVar.shell_var = none ∧
    (verify_path_setup pEnvNoShellVar cfgEmpty).ret = .ok true := by
  decide

/-- C1 as amended: `verify_path_setup` returns a plain boolean, and every
inconclusive outcome (unset `$SHELL`, unrecognized shell, spawn failure) is
collapsed into the same `Ok(true)` value as verified success; the three-way
distinction survives only in the warning that is printed, not in the
returned value. -/
theorem C1_boolean_collapse (env : PathEnv) (cfg : Config)
    (hx : xdgDataYabridgeExists env = false) :
    (env.shell_var = none →
      verify_path_setup env cfg = ⟨.ok true, none, some .noLoginShell⟩) ∧
    (∀ sp, env.shell_var = some sp → classifyShell (shellNameOf sp) = .unknown →
      verify_path_setup env cfg =
        ⟨.ok true, none, some (.unknownShell (shellNameOf sp))⟩) ∧
    (∀ sp args e, env.shell_var = some sp →
      recipeArgs (classifyShell (shellNameOf sp)) = some args →
      env.probe_status = .error e →
      verify_path_setup env cfg =
        ⟨.ok true, some ⟨sp, '-' :: sp, args⟩,
          some (.spawnFailed (shellNameOf sp) e)⟩) := by
  refine ⟨?_, ?_, ?_⟩
  · intro h
    simp [verify_path_setup, hx, h]
  · intro sp h1 h2
    simp [verify_path_setup, hx, h1, h2, recipeArgs]
  · intro sp args e h1 h2 h3
    simp [verify_path_setup, hx, h1, h2, h3]

/-- Witness for the amended C1 at the concrete unset-`$SHELL` run. -/
theorem C1_boolean_collapse_witness :
    verify_path_setup pEnvNoShellVar cfgEmpty =
      ⟨.ok true, none, some .noLoginShell⟩ :=
  (C1_boolean_collapse pEnvNoShellVar cfgEmpty (by decide)).1 rfl

/-- Counterexample to C6 as stated: with a recognized shell (bash) whose
probe runs and exits 1, the result is not the verified-but-missing value:
building the warning runs `config.files()?`, and when file resolution fails
the function returns that error instead. -/
theorem C6_counterexample :
    classifyShell (shellNameOf "/bin/bash".toList) = .posixLogin ∧
    pEnvBashExit1.probe_status = .ok 1 ∧
    cfgEmpty.files = none ∧
    (verify_path_setup pEnvBashExit1 cfgEmpty).ret = .err ∧
    (verify_path_setup pEnvBashExit1 cfgEmpty).ret ≠ .ok false := by
  decide

/-- C6 as amended: for a recognized shell, exit status 0 yields `Ok(true)`;
a non-zero exit yields `Ok(false)` with the warning, provided the config's
file resolution (used only to build the warning text) succeeds and the
bridge library path has a parent; when file resolution fails the non-zero
case propagates that error instead; a spawn failure yields `Ok(true)` with a
warning carrying the spawn error. -/
theorem C6_probe_outcomes (env : PathEnv) (cfg : Config) (sp : Str)
    (args : List Str)
    (hx : xdgDataYabridgeExists env = false)
    (hs : env.shell_var = some sp)
    (ha : recipeArgs (classifyShell (shellNameOf sp)) = some args) :
    (env.probe_status = .ok 0 →
      verify_path_setup env cfg = ⟨.ok true, some ⟨sp, '-' :: sp, args⟩, none⟩) ∧
    (∀ n, env.probe_status = .ok n → n ≠ 0 →
      ∀ fs dir, cfg.files = some fs → parentOf fs.libyabridge_vst2 = some dir →
      verify_path_setup env cfg =
        ⟨.ok false, some ⟨sp, '-' :: sp, args⟩,
          some (.notInPath dir (shellNameOf sp))⟩) ∧
    (∀ n, env.probe_status = .ok n → n ≠ 0 → cfg.files = none →
      verify_path_setup env cfg = ⟨.err, some ⟨sp, '-' :: sp, args⟩, none⟩) ∧
    (∀ e, env.probe_status = .error e →
      verify_path_setup env cfg =
        ⟨.ok true, some ⟨sp, '-' :: sp, args⟩,
          some (.spawnFailed (shellNameOf sp) e)⟩) := by
  refine ⟨?_, ?_, ?_, ?_⟩
  · intro h
    simp [verify_path_setup, hx, hs, ha, h]
  · intro n h1 h2 fs dir h3 h4
    simp [verify_path_setup, hx, hs, ha, h1, h2, h3, h4]
  · intro n h1 h2 h3
    simp [verify_path_setup, hx, hs, ha, h1, h2, h3]
  · intro e h
    simp [verify_path_setup, hx, hs, ha, h]

/-- Witness for the amended C6: bash probe exits 1 with resolved files. -/
theorem C6_probe_outcomes_witness :
    verify_path_setup pEnvBashExit1 cfgWithFiles =
      ⟨.ok false, some ⟨"/bin/bash".toList, '-' :: "/bin/bash".toList, bashArgs⟩,
        some (.notInPath "/usr/lib".toList "bash".toList)⟩ := by
  have h := (C6_probe_outcomes pEnvBashExit1 cfgWithFiles "/bin/bash".toList
    bashArgs (by decide) rfl (by decide)).2.1 1 rfl (by decide) filesDemo
    "/usr/lib".toList rfl (by decide)
  exact h.trans (by decide)

/-- C7: when the companion binary is executable in the XDG data directory,
`verify_path_setup` returns `Ok(true)` at once, spawning no subprocess and
reading neither `$SHELL` nor the probe outcome. -/
theorem C7_xdg_short_circuit (env : PathEnv) (cfg : Config) (d : Str)
    (h1 : env.data_home = some d)
    (h2 : env.is_executable (d ++ "/".toList ++ YABRIDGE_HOST_EXE_NAME) = true) :
    verify_path_setup env cfg = ⟨.ok true, none, none⟩ ∧
    ∀ sv pr, verify_path_setup
      { env with shell_var := sv, probe_status := pr } cfg =
      ⟨.ok true, none, none⟩ := by
  have hx : xdgDataYabridgeExists env = true := by
    unfold xdgDataYabridgeExists
    rw [h1]
    simpa using h2
  refine ⟨by simp [verify_path_setup, hx], ?_⟩
  intro sv pr
  have hx2 : xdgDataYabridgeExists
      { env with shell_var := sv, probe_status := pr } = true := by
    unfold xdgDataYabridgeExists
    rw [show ({ env with shell_var := sv, probe_status := pr } : PathEnv).data_home
        = some d from h1]
    simpa using h2
  simp [verify_path_setup, hx2]

/-- Witness for C7: the concrete XDG-hit run, including one with a changed
`$SHELL` and probe outcome. -/
theorem C7_xdg_short_circuit_witness :
    verify_path_setup pEnvVerifiedXdg cfgEmpty = ⟨.ok true, none, none⟩ ∧
    verify_path_setup
      { pEnvVerifiedXdg with shell_var := some "/bin/zsh".toList,
                             probe_status := .ok 1 } cfgEmpty =
      ⟨.ok true, none, none⟩ :=
  ⟨(C7_xdg_short_circuit pEnvVerifiedXdg cfgEmpty
      "/home/u/.local/share/yabridge".toList rfl rfl).1,
   (C7_xdg_short_circuit pEnvVerifiedXdg cfgEmpty
      "/home/u/.local/share/yabridge".toList rfl rfl).2
      (some "/bin/zsh".toList) (.ok 1)⟩

/-- C8: the shell table is total and matches the source's enumeration: the
ten POSIX shells get the login flag plus `command -v`; elvish and oil get
`command -v` without the login flag; pwsh gets the login flag plus `which`;
nu gets `which` without the login flag; every other identifier is `unknown`,
which produces a warning naming the shell and the skip (`Ok(true)`) outcome
rather than an error. -/
theorem C8_shell_table_total :
    (∀ s ∈ posixLoginShells, classifyShell s = .posixLogin ∧
      recipeArgs (classifyShell s) =
        some ["-l".toList, "-c".toList,
              "command -v ".toList ++ YABRIDGE_HOST_EXE_NAME]) ∧
    (∀ s ∈ commandNoLoginShells, classifyShell s = .posixNoLogin ∧
      recipeArgs (classifyShell s) =
        some ["-c".toList, "command -v ".toList ++ YABRIDGE_HOST_EXE_NAME]) ∧
    (classifyShell "pwsh".toList = .whichLogin ∧
      recipeArgs .whichLogin =
        some ["-l".toList, "-c".toList,
              "which ".toList ++ YABRIDGE_HOST_EXE_NAME]) ∧
    (classifyShell "nu".toList = .whichNoLogin ∧
      recipeArgs .whichNoLogin =
        some ["-c".toList, "which ".toList ++ YABRIDGE_HOST_EXE_NAME]) ∧
    (∀ s, s ∉ posixLoginShells → s ∉ commandNoLoginShells →
      s ≠ "pwsh".toList → s ≠ "nu".toList → classifyShell s = .unknown) ∧
    (∀ (env : PathEnv) (cfg : Config) (sp : Str),
      xdgDataYabridgeExists env = false → env.shell_var = some sp →
      classifyShell (shellNameOf sp) = .unknown →
      verify_path_setup env cfg =
        ⟨.ok true, none, some (.unknownShell (shellNameOf sp))⟩) := by
  refine ⟨by decide, by decide, by decide, by decide, ?_, ?_⟩
  · intro s h1 h2 h3 h4
    simp only [classifyShell, if_neg h1, if_neg h2, if_neg h3, if_neg h4]
  · intro env cfg sp hx hs hu
    simp [verify_path_setup, hx, hs, hu, recipeArgs]

/-- Witness for C8: a concrete unrecognized shell is classified `unknown`
and degrades to the skip-with-warning outcome. -/
theorem C8_shell_table_total_witness :
    classifyShell "xonsh".toList = .unknown ∧
    verify_path_setup pEnvUnknownShell cfgEmpty =
      ⟨.ok true, none, some (.unknownShell "xonsh".toList)⟩ := by
  constructor
  · exact C8_shell_table_total.2.2.2.2.1 "xonsh".toList
      (by decide) (by decide) (by decide) (by decide)
  · have h := C8_shell_table_total.2.2.2.2.2 pEnvUnknownShell cfgEmpty
      "/usr/bin/xonsh".toList (by decide) rfl (by decide)
    exact h.trans (by decide)

end Yabridge
